import Mathlib

/-!
Shallow embedding of `src/pandas/aws_scanner_cli_final.py`.

The program is glue code around two external boundaries, which are kept
abstract here exactly as the spec declares them out of scope:

* the cloud API: the EC2 instance listing is a function
  `List String → List EC2Instance` (filter values in, matching instances
  out), and the EBS volume listing is a concrete `DescribeVolumesResponse`
  value (status code plus volume records);
* `configparser`: modelled by its documented semantics — `config.items()`
  yields the implicit `DEFAULT` section first and then every file section,
  and a section's `dict(...)` view is the section's own options merged with
  the `DEFAULT` options, the section's own values taking precedence.
  `configparser` rejects duplicate section and option names, so Python
  `dict` lookups over these are modelled with first-match `List.lookup`.

Python `dict(pairs)` built from `getopt` output can see duplicate keys
(a flag passed twice), and there the last occurrence wins; `dictGet`
models that.  `Option String` models Python's `None`-or-`str` values, and
Python truthiness of such a value is `some s` with `s ≠ ""`.
-/

/-! ## Credential resolver: `get_profiles` (lines 7–14) -/

/-- A parsed INI config store: the implicit `DEFAULT` section's own
key/value pairs, and the named sections in file order with their own
key/value pairs (defaults not yet merged). -/
structure ConfigStore where
  defaults : List (String × String)
  sections : List (String × List (String × String))
deriving DecidableEq

/-- The `dict(proxy)` view of a named section: the section's own pairs followed by
the `DEFAULT` pairs whose key the section does not define (section values
take precedence, per `configparser`). -/
def mergeWithDefaults (defaults own : List (String × String)) : List (String × String) :=
  own ++ defaults.filter (fun d => (own.lookup d.1).isNone)

/-- Line 10, the dict comprehension over `config.items()`:
the `DEFAULT` section first, then every named section with defaults
merged in. -/
def configDict (store : ConfigStore) : List (String × List (String × String)) :=
  ("DEFAULT", store.defaults) :: store.sections.map (fun s => (s.1, mergeWithDefaults store.defaults s.2))

/-- Line 11, `config_dict.pop` of the `DEFAULT` entry: the dictionary without the
`DEFAULT` entry. -/
def configDictNoDefault (store : ConfigStore) : List (String × List (String × String)) :=
  (configDict store).filter (fun e => e.1 != "DEFAULT")

/-- Result type: `get_profiles` returns either one section's pairs (possibly `None`
when `config_dict.get(profile)` misses) or the whole mapping. -/
inductive ProfilesResult where
  | single (kvs : Option (List (String × String)))
  | full (m : List (String × List (String × String)))
deriving DecidableEq

/-- Lines 7–14, `get_profiles(profile)`: build the dict, drop `DEFAULT`,
then — when `profile` is truthy — `config_dict.get(profile)`, else the
full mapping. -/
def get_profiles (profile : Option String) (store : ConfigStore) : ProfilesResult :=
  let config_dict := configDictNoDefault store
  match profile with
  | none => ProfilesResult.full config_dict
  | some p =>
    if p = "" then ProfilesResult.full config_dict
    else ProfilesResult.single (config_dict.lookup p)

/-! ## EC2 scanner (lines 17–156) -/

/-- One compute instance as seen through the cloud boundary: its id, its
`monitoring["State"]` and its `state["Name"]`. -/
structure EC2Instance where
  id : String
  monitoringState : String
  stateName : String
deriving DecidableEq

/-- Result of an instance query: the `"No Instances"` sentinel string or a
two-column table (identifier, attribute). -/
inductive InstanceResult where
  | sentinel (msg : String)
  | table (rows : List (String × String))
deriving DecidableEq

/-- Lines 79–83: `"all"` expands to both monitoring states; any other
stored filter (including `None`) is replaced by the single empty string. -/
def monitoringFilterValues (fil : Option String) : List String :=
  if fil = some "all" then ["enabled", "disabled"] else [""]

/-- Lines 122–134: `"all"` expands to the six lifecycle states; any other
stored filter (including `None`) is replaced by the single empty string. -/
def stateFilterValues (fil : Option String) : List String :=
  if fil = some "all" then
    ["pending", "running", "shutting-down", "terminated", "stopping", "stopped"]
  else [""]

namespace EC2_Scanner

/-- Lines 64–103, `get_instances_by_monitoring`: list instances with the
computed `monitoring-state` filter values, build the two-column
`(Instance, Monitoring)` table, return `"No Instances"` when it has zero
rows. `aws` is the abstract `ec2_resource.instances.filter` boundary. -/
def get_instances_by_monitoring (aws : List String → List EC2Instance)
    (fil : Option String) : InstanceResult :=
  let instances := aws (monitoringFilterValues fil)
  let rows := instances.map (fun i => (i.id, i.monitoringState))
  if rows.length = 0 then InstanceResult.sentinel "No Instances"
  else InstanceResult.table rows

/-- Lines 108–153, `get_instances_by_state`: same shape with the
`instance-state-name` filter and the `(Instance, State)` table. -/
def get_instances_by_state (aws : List String → List EC2Instance)
    (fil : Option String) : InstanceResult :=
  let instances := aws (stateFilterValues fil)
  let rows := instances.map (fun i => (i.id, i.stateName))
  if rows.length = 0 then InstanceResult.sentinel "No Instances"
  else InstanceResult.table rows

end EC2_Scanner

/-! ## EBS scanner (lines 159–268) -/

/-- One storage volume record with the attributes the queries touch. -/
structure Volume where
  volumeId : String
  state : String
  encrypted : Bool
  size : Nat
deriving DecidableEq

/-- The `describe_volumes()` response: its
`ResponseMetadata.HTTPStatusCode` and its `Volumes` list. -/
structure DescribeVolumesResponse where
  httpStatusCode : Nat
  volumes : List Volume
deriving DecidableEq

/-- Result of a volume query: the `"No Volumes"` sentinel string or a
table of volume rows. -/
inductive VolumeResult where
  | sentinel (msg : String)
  | table (rows : List Volume)
deriving DecidableEq

namespace EBS_Scanner

/-- Lines 223–226: the rows accumulated into `volumes_df` — every returned
volume when the status code is 200, nothing otherwise. -/
def accumulatedVolumes (resp : DescribeVolumesResponse) : List Volume :=
  if resp.httpStatusCode = 200 then resp.volumes else []

/-- Lines 206–237, `get_volumes_by_state`: accumulate rows under the
status-code check, return `"No Volumes"` on zero rows, else filter by
`State == self.fil` only when the stored filter is truthy. -/
def get_volumes_by_state (resp : DescribeVolumesResponse)
    (fil : Option String) : VolumeResult :=
  let volumes_df := accumulatedVolumes resp
  if volumes_df.length = 0 then VolumeResult.sentinel "No Volumes"
  else
    match fil with
    | none => VolumeResult.table volumes_df
    | some f =>
      if f = "" then VolumeResult.table volumes_df
      else VolumeResult.table (volumes_df.filter (fun v => v.state == f))

/-- Lines 239–268, `get_volumes_by_encryption`: no status-code check;
when the fetched set is non-empty keep the rows with `Encrypted == False`,
else return `"No Volumes"`. -/
def get_volumes_by_encryption (resp : DescribeVolumesResponse) : VolumeResult :=
  let volumns_df := resp.volumes
  if volumns_df.length > 0 then
    VolumeResult.table (volumns_df.filter (fun v => v.encrypted == false))
  else VolumeResult.sentinel "No Volumes"

end EBS_Scanner

/-! ## Command dispatcher (`__main__`, lines 270–338) -/

/-- Python `dict(arguments).get(k)` where `arguments` comes from `getopt`:
with duplicate flags the last occurrence wins. -/
def dictGet (args : List (String × String)) (k : String) : Option String :=
  args.reverse.lookup k

/-- Which scanner method a scan invocation routes to. -/
inductive ScanCall where
  | ec2State
  | ec2Monitoring
  | ebsState
  | ebsEncryption
deriving DecidableEq

/-- The five constructor arguments handed to a scanner (lines 311–317 and
324–330), each an optional string from `arguments_dict.get`. -/
structure ScannerArgs where
  profile : Option String
  region : Option String
  operation : Option String
  fil : Option String
  sort : Option String
deriving DecidableEq

/-- Observable outcome of the `__main__` block: an uncaught exception with
its message, help text printed for the named scanners, or a scanner
constructed and one query method invoked. -/
inductive MainOutcome where
  | raised (msg : String)
  | helpPrinted (targets : List String)
  | scan (call : ScanCall) (args : ScannerArgs)
deriving DecidableEq

/-- Lines 290–298: which help texts the `--help` loop prints for the
`getopt`-parsed pairs. -/
def helpTargets (args : List (String × String)) : List String :=
  args.flatMap (fun kv =>
    if kv.1 = "-h" ∨ kv.1 = "--help" then
      if kv.2 = "ec2" then ["EC2_Scanner"]
      else if kv.2 = "ebs" then ["EBS_Scanner"]
      else ["EC2_Scanner", "EBS_Scanner"]
    else [])

/-- Lines 302–336 after a valid service selector: parse flags into a dict,
require `--operation`, `--region`, `--profile`, construct the scanner
arguments and route on service × (`operation == 'state'`). -/
def dispatchScan (aws_service : String) (args : List (String × String)) : MainOutcome :=
  if ((dictGet args "--operation").isSome && (dictGet args "--region").isSome
      && (dictGet args "--profile").isSome) then
    let method_to_call := dictGet args "--operation"
    let sargs : ScannerArgs :=
      ⟨dictGet args "--profile", dictGet args "--region", dictGet args "--operation",
        dictGet args "--filter", dictGet args "--sort"⟩
    if aws_service = "ec2" then
      if method_to_call = some "state" then MainOutcome.scan ScanCall.ec2State sargs
      else MainOutcome.scan ScanCall.ec2Monitoring sargs
    else
      if method_to_call = some "state" then MainOutcome.scan ScanCall.ebsState sargs
      else MainOutcome.scan ScanCall.ebsEncryption sargs
  else MainOutcome.raised "Missing any argument: --operation,--region,--profile"

/-- The `__main__` block (lines 270–338). `getoptFn` is the abstract
`getopt.getopt` boundary: flag pairs on success, a `GetoptError` message
on failure (which the script does not catch, so it surfaces as a raised
exception). An empty argument list raises before anything else; `--help`
as the first argument enters the help branch; otherwise the first
argument must be `ec2` or `ebs` and the rest is parsed and dispatched. -/
def mainBlock (getoptFn : List String → Except String (List (String × String)))
    (argv : List String) : MainOutcome :=
  match argv with
  | [] => MainOutcome.raised "Please provide arguments."
  | a0 :: rest =>
    if a0 = "--help" then
      let argumentList := a0 :: (if rest.isEmpty then ["both"] else rest)
      let a1 := match rest with | [] => "both" | x :: _ => x
      if a1 = "ec2" ∨ a1 = "ebs" ∨ a1 = "both" then
        match getoptFn argumentList with
        | Except.error e => MainOutcome.raised e
        | Except.ok args => MainOutcome.helpPrinted (helpTargets args)
      else MainOutcome.raised "Valid arguments --help ec2 | --help ebs | --help"
    else
      if a0 = "ec2" ∨ a0 = "ebs" then
        match getoptFn rest with
        | Except.error e => MainOutcome.raised e
        | Except.ok args => dispatchScan a0 args
      else MainOutcome.raised "Missing ec2 or ebs."

/-! ## Association-list lookup helpers -/

/-- Lookup in an appended association list tries the left part first. -/
theorem lookup_append {β : Type} (l1 l2 : List (String × β)) (k : String) :
    (l1 ++ l2).lookup k = ((l1.lookup k).or (l2.lookup k)) := by
  induction l1 with
  | nil => simp [List.lookup]
  | cons a t ih =>
    cases h : (k == a.1) <;> simp [List.lookup, h, ih]

/-- Lookup ignores entries whose key differs from the looked-up key, so a
filter that only drops such entries does not change the result. -/
theorem lookup_filter_isNone (own defaults : List (String × String)) (k : String)
    (ho : own.lookup k = none) :
    (defaults.filter (fun d => (own.lookup d.1).isNone)).lookup k = defaults.lookup k := by
  induction defaults with
  | nil => rfl
  | cons d t ih =>
    cases hkd : (k == d.1) with
    | true =>
      have hd1 : d.1 = k := (eq_of_beq hkd).symm
      have : (own.lookup d.1).isNone = true := by rw [hd1, ho]; rfl
      simp [List.filter, this, List.lookup, hkd]
    | false =>
      cases hp : (own.lookup d.1).isNone <;>
        simp [List.filter, hp, List.lookup, hkd, ih]

/-- A merged section view resolves a key to the section's own value when
present and to the `DEFAULT` value otherwise. -/
theorem lookup_mergeWithDefaults (defaults own : List (String × String)) (k : String) :
    (mergeWithDefaults defaults own).lookup k = ((own.lookup k).or (defaults.lookup k)) := by
  unfold mergeWithDefaults
  rw [lookup_append]
  cases ho : own.lookup k with
  | some v => rfl
  | none => simp [lookup_filter_isNone own defaults k ho]

/-- Lookup commutes with mapping over the values of an association list. -/
theorem lookup_map_snd {β γ : Type} (g : β → γ) (l : List (String × β)) (k : String) :
    (l.map (fun s => (s.1, g s.2))).lookup k = (l.lookup k).map g := by
  induction l with
  | nil => rfl
  | cons a t ih =>
    cases h : (k == a.1) <;> simp [List.lookup, h, ih]

/-- Lookup misses when no entry carries the looked-up key. -/
theorem lookup_eq_none_of_all_ne {β : Type} (l : List (String × β)) (k : String)
    (h : ∀ e ∈ l, e.1 ≠ k) : l.lookup k = none := by
  rw [List.lookup_eq_none_iff]
  intro p hp
  simpa [bne_iff_ne] using fun hkk => h p hp hkk.symm

/-! ## Concrete fixtures used by witnesses and counterexamples -/

/-- An instance listing that returns one instance for any filter. -/
def awsOne : List String → List EC2Instance :=
  fun _ => [⟨"i-0abc", "enabled", "running"⟩]

/-- A successful volume response with one attached, encrypted volume and
one available, unencrypted volume. -/
def respTwo : DescribeVolumesResponse :=
  ⟨200, [⟨"vol-1", "in-use", true, 8⟩, ⟨"vol-2", "available", false, 16⟩]⟩

/-- A successful volume response with a single in-use volume. -/
def respOne : DescribeVolumesResponse :=
  ⟨200, [⟨"vol-1", "in-use", true, 8⟩]⟩

/-- A failed volume response (HTTP 500) that still carries a volume. -/
def respErr : DescribeVolumesResponse :=
  ⟨500, [⟨"vol-9", "available", false, 4⟩]⟩

/-- A successful response carrying the same volumes as `respErr`. -/
def respErrOk : DescribeVolumesResponse :=
  ⟨200, [⟨"vol-9", "available", false, 4⟩]⟩

/-- A `getopt` stub returning a fixed parse with only `--operation`. -/
def getoptStub : List String → Except String (List (String × String)) :=
  fun _ => Except.ok [("--operation", "state")]

/-- A config store with a `[DEFAULT]` key and a `[default]` section. -/
def c2Store : ConfigStore :=
  ⟨[("shared_key", "from_default")], [("default", [("aws_access_key_id", "AKIA")])]⟩

/-! ## Claim theorems -/

/-- C1: for every stored filter other than the literal `"all"` (including
`None` and arbitrary caller-supplied strings), both instance queries use
the filter value list `[""]` — so their behaviour is identical to the
no-filter invocation — and only `"all"` expands to the enumerated
lists. -/
theorem ec2_nonAll_filter_is_single_empty_string
    (aws : List String → List EC2Instance) (fil : Option String)
    (h : fil ≠ some "all") :
    monitoringFilterValues fil = [""] ∧ stateFilterValues fil = [""] ∧
    EC2_Scanner.get_instances_by_monitoring aws fil =
      EC2_Scanner.get_instances_by_monitoring aws none ∧
    EC2_Scanner.get_instances_by_state aws fil =
      EC2_Scanner.get_instances_by_state aws none := by
  have hm : monitoringFilterValues fil = [""] := by
    simp [monitoringFilterValues, h]
  have hs : stateFilterValues fil = [""] := by
    simp [stateFilterValues, h]
  refine ⟨hm, hs, ?_, ?_⟩
  · unfold EC2_Scanner.get_instances_by_monitoring
    rw [hm]
    rfl
  · unfold EC2_Scanner.get_instances_by_state
    rw [hs]
    rfl

/-- C1 witness at the caller-supplied filter `"stopped"`. -/
theorem ec2_nonAll_filter_is_single_empty_string_witness :
    monitoringFilterValues (some "stopped") = [""] ∧
    stateFilterValues (some "stopped") = [""] := by
  have h := ec2_nonAll_filter_is_single_empty_string awsOne (some "stopped") (by decide)
  exact ⟨h.1, h.2.1⟩

/-- C3: both instance queries return the sentinel `"No Instances"` exactly
when the underlying list call yields zero matching instances, and return
the two-column table of (id, attribute) rows otherwise. -/
theorem instance_queries_sentinel_iff_no_matches
    (aws : List String → List EC2Instance) (fil : Option String) :
    (EC2_Scanner.get_instances_by_monitoring aws fil = InstanceResult.sentinel "No Instances" ↔
      aws (monitoringFilterValues fil) = []) ∧
    (EC2_Scanner.get_instances_by_state aws fil = InstanceResult.sentinel "No Instances" ↔
      aws (stateFilterValues fil) = []) ∧
    (aws (monitoringFilterValues fil) ≠ [] →
      EC2_Scanner.get_instances_by_monitoring aws fil =
        InstanceResult.table ((aws (monitoringFilterValues fil)).map
          (fun i => (i.id, i.monitoringState)))) ∧
    (aws (stateFilterValues fil) ≠ [] →
      EC2_Scanner.get_instances_by_state aws fil =
        InstanceResult.table ((aws (stateFilterValues fil)).map
          (fun i => (i.id, i.stateName)))) := by
  refine ⟨?_, ?_, ?_, ?_⟩
  · cases hm : aws (monitoringFilterValues fil) <;>
      simp [EC2_Scanner.get_instances_by_monitoring, hm]
  · cases hs : aws (stateFilterValues fil) <;>
      simp [EC2_Scanner.get_instances_by_state, hs]
  · intro hne
    cases hm : aws (monitoringFilterValues fil) with
    | nil => exact absurd hm hne
    | cons a l => simp [EC2_Scanner.get_instances_by_monitoring, hm]
  · intro hne
    cases hs : aws (stateFilterValues fil) with
    | nil => exact absurd hs hne
    | cons a l => simp [EC2_Scanner.get_instances_by_state, hs]

/-- C3 witness: one matching instance yields the two-column table. -/
theorem instance_queries_sentinel_iff_no_matches_witness :
    EC2_Scanner.get_instances_by_monitoring awsOne none =
      InstanceResult.table [("i-0abc", "enabled")] ∧
    EC2_Scanner.get_instances_by_state awsOne none =
      InstanceResult.table [("i-0abc", "running")] := by
  have h := instance_queries_sentinel_iff_no_matches awsOne none
  refine ⟨?_, ?_⟩
  · have hm := h.2.2.1 (by decide)
    simpa [awsOne] using hm
  · have hs := h.2.2.2 (by decide)
    simpa [awsOne] using hs

/-- C9: in `get_volumes_by_state` a stored empty-string filter takes the
same path as no filter at all, for every response. -/
theorem volumes_by_state_empty_filter_like_none (resp : DescribeVolumesResponse) :
    EBS_Scanner.get_volumes_by_state resp (some "") =
      EBS_Scanner.get_volumes_by_state resp none := rfl

/-- C10: with zero command-line arguments the script raises
`"Please provide arguments."` before option parsing (the outcome does not
depend on the `getopt` boundary), help printing, or any scan. -/
theorem mainBlock_empty_argv_raises
    (getoptFn : List String → Except String (List (String × String))) :
    mainBlock getoptFn [] = MainOutcome.raised "Please provide arguments." := rfl

/-- C4: on a successful fetch of at least one volume, `get_volumes_by_state`
with no stored filter returns every fetched volume unmodified, and with a
(truthy) filter string returns exactly the rows whose `State` equals it,
case-sensitively, whatever string it is (no lifecycle-state validation). -/
theorem volumes_by_state_filter_exact_subset
    (resp : DescribeVolumesResponse) (f : String)
    (h200 : resp.httpStatusCode = 200) (hne : resp.volumes ≠ []) (hf : f ≠ "") :
    EBS_Scanner.get_volumes_by_state resp none = VolumeResult.table resp.volumes ∧
    EBS_Scanner.get_volumes_by_state resp (some f) =
      VolumeResult.table (resp.volumes.filter (fun v => v.state == f)) := by
  have hacc : EBS_Scanner.accumulatedVolumes resp = resp.volumes := by
    simp [EBS_Scanner.accumulatedVolumes, h200]
  have hlen : resp.volumes.length ≠ 0 := fun hz => hne (List.length_eq_zero.mp hz)
  constructor <;> simp [EBS_Scanner.get_volumes_by_state, hacc, hlen, hf]

/-- C4 witness: filtering two fetched volumes by `"available"` (an
arbitrary string, no validation) keeps exactly the matching row. -/
theorem volumes_by_state_filter_exact_subset_witness :
    EBS_Scanner.get_volumes_by_state respTwo none = VolumeResult.table respTwo.volumes ∧
    EBS_Scanner.get_volumes_by_state respTwo (some "available") =
      VolumeResult.table [⟨"vol-2", "available", false, 16⟩] := by
  have h := volumes_by_state_filter_exact_subset respTwo "available"
    (by decide) (by decide) (by decide)
  refine ⟨h.1, ?_⟩
  rw [h.2]
  rfl

/-- C5: `get_volumes_by_encryption` returns exactly the fetched rows whose
`Encrypted` flag is boolean false, and the sentinel `"No Volumes"` when
the unfiltered fetched set is empty. -/
theorem volumes_by_encryption_unencrypted_subset (resp : DescribeVolumesResponse) :
    (resp.volumes ≠ [] →
      EBS_Scanner.get_volumes_by_encryption resp =
        VolumeResult.table (resp.volumes.filter (fun v => v.encrypted == false))) ∧
    (resp.volumes = [] →
      EBS_Scanner.get_volumes_by_encryption resp = VolumeResult.sentinel "No Volumes") := by
  cases hv : resp.volumes with
  | nil => simp [EBS_Scanner.get_volumes_by_encryption, hv]
  | cons a l => simp [EBS_Scanner.get_volumes_by_encryption, hv]

/-- C5 witness: of two fetched volumes only the unencrypted one is kept. -/
theorem volumes_by_encryption_unencrypted_subset_witness :
    EBS_Scanner.get_volumes_by_encryption respTwo =
      VolumeResult.table [⟨"vol-2", "available", false, 16⟩] := by
  have h := (volumes_by_encryption_unencrypted_subset respTwo).1 (by decide)
  rw [h]
  rfl

/-- C6: `get_volumes_by_state` returns the sentinel `"No Volumes"` exactly
when the accumulated table is empty before the filter is applied; when
volumes were accumulated but a (truthy) filter matches none of them it
returns an empty table, not the sentinel. -/
theorem volumes_by_state_sentinel_iff_empty_before_filter
    (resp : DescribeVolumesResponse) (fil : Option String) (f : String) :
    (EBS_Scanner.get_volumes_by_state resp fil = VolumeResult.sentinel "No Volumes" ↔
      EBS_Scanner.accumulatedVolumes resp = []) ∧
    (EBS_Scanner.accumulatedVolumes resp ≠ [] →
      (∀ v ∈ EBS_Scanner.accumulatedVolumes resp, v.state ≠ f) → f ≠ "" →
      EBS_Scanner.get_volumes_by_state resp (some f) = VolumeResult.table []) := by
  constructor
  · cases hacc : EBS_Scanner.accumulatedVolumes resp with
    | nil =>
      cases fil with
      | none => simp [EBS_Scanner.get_volumes_by_state, hacc]
      | some g => by_cases hg : g = "" <;> simp [EBS_Scanner.get_volumes_by_state, hacc, hg]
    | cons a l =>
      cases fil with
      | none => simp [EBS_Scanner.get_volumes_by_state, hacc]
      | some g => by_cases hg : g = "" <;> simp [EBS_Scanner.get_volumes_by_state, hacc, hg]
  · intro hne hnm hf
    cases hacc : EBS_Scanner.accumulatedVolumes resp with
    | nil => exact absurd hacc hne
    | cons a l =>
      have hfil : (a :: l).filter (fun v => v.state == f) = [] := by
        rw [List.filter_eq_nil_iff]
        intro v hv
        simpa using hnm v (hacc ▸ hv)
      simp [EBS_Scanner.get_volumes_by_state, hacc, hf, hfil]

/-- C6 witness: one accumulated volume, a filter matching none: the empty
table is returned rather than the sentinel. -/
theorem volumes_by_state_sentinel_iff_empty_before_filter_witness :
    EBS_Scanner.get_volumes_by_state respOne (some "available") = VolumeResult.table [] := by
  exact (volumes_by_state_sentinel_iff_empty_before_filter respOne none "available").2
    (by decide) (by decide) (by decide)

/-- C7: with a non-200 status code `get_volumes_by_state` accumulates no
rows and returns the sentinel `"No Volumes"` no matter which volumes the
response carries, while `get_volumes_by_encryption` performs no status
check — its result depends only on the `Volumes` list. -/
theorem volumes_by_state_requires_status_200
    (resp r2 : DescribeVolumesResponse) (fil : Option String)
    (h : resp.httpStatusCode ≠ 200) (hv : r2.volumes = resp.volumes) :
    EBS_Scanner.get_volumes_by_state resp fil = VolumeResult.sentinel "No Volumes" ∧
    EBS_Scanner.accumulatedVolumes resp = [] ∧
    EBS_Scanner.get_volumes_by_encryption r2 = EBS_Scanner.get_volumes_by_encryption resp := by
  have hacc : EBS_Scanner.accumulatedVolumes resp = [] := by
    simp [EBS_Scanner.accumulatedVolumes, h]
  refine ⟨?_, hacc, ?_⟩
  · simp [EBS_Scanner.get_volumes_by_state, hacc]
  · simp [EBS_Scanner.get_volumes_by_encryption, hv]

/-- C7 witness: an HTTP 500 response carrying a volume still yields the
sentinel, and the encryption query ignores the status code. -/
theorem volumes_by_state_requires_status_200_witness :
    EBS_Scanner.get_volumes_by_state respErr none = VolumeResult.sentinel "No Volumes" ∧
    EBS_Scanner.get_volumes_by_encryption respErrOk =
      EBS_Scanner.get_volumes_by_encryption respErr := by
  have h := volumes_by_state_requires_status_200 respErr respErrOk none (by decide) (by decide)
  exact ⟨h.1, h.2.2⟩

/-- C8: for `ec2`/`ebs` invocations whose parsed flags miss any of
`--operation`, `--region`, `--profile`, the script raises the argument
error and no scanner is constructed (the outcome is `raised`, not `scan`);
when all three are present a scan is dispatched even with `--filter` and
`--sort` absent — they are passed through as optional values. -/
theorem dispatch_requires_operation_region_profile
    (service : String) (rest : List String)
    (getoptFn : List String → Except String (List (String × String)))
    (args : List (String × String))
    (hs : service = "ec2" ∨ service = "ebs")
    (hg : getoptFn rest = Except.ok args) :
    ((dictGet args "--operation" = none ∨ dictGet args "--region" = none ∨
        dictGet args "--profile" = none) →
      mainBlock getoptFn (service :: rest) =
        MainOutcome.raised "Missing any argument: --operation,--region,--profile") ∧
    ((dictGet args "--operation").isSome = true → (dictGet args "--region").isSome = true →
      (dictGet args "--profile").isSome = true →
      ∃ call, mainBlock getoptFn (service :: rest) =
        MainOutcome.scan call
          ⟨dictGet args "--profile", dictGet args "--region", dictGet args "--operation",
            dictGet args "--filter", dictGet args "--sort"⟩) := by
  have hred : mainBlock getoptFn (service :: rest) = dispatchScan service args := by
    rcases hs with h | h <;> subst h <;> simp [mainBlock, hg]
  constructor
  · intro hmiss
    rw [hred]
    unfold dispatchScan
    rcases hmiss with hm | hm | hm <;> simp [hm]
  · intro h1 h2 h3
    rw [hred]
    unfold dispatchScan
    rcases hs with h | h <;> subst h <;>
      by_cases hop : dictGet args "--operation" = some "state"
    · exact ⟨ScanCall.ec2State, by simp [h1, h2, h3, hop]⟩
    · exact ⟨ScanCall.ec2Monitoring, by simp [h1, h2, h3, hop]⟩
    · exact ⟨ScanCall.ebsState, by simp [h1, h2, h3, hop]⟩
    · exact ⟨ScanCall.ebsEncryption, by simp [h1, h2, h3, hop]⟩

/-- C8 witness: `ec2` with only `--operation` parsed raises the argument
error before any scanner exists. -/
theorem dispatch_requires_operation_region_profile_witness :
    mainBlock getoptStub ["ec2"] =
      MainOutcome.raised "Missing any argument: --operation,--region,--profile" := by
  exact (dispatch_requires_operation_region_profile "ec2" [] getoptStub
    [("--operation", "state")] (Or.inl rfl) rfl).1 (Or.inr (Or.inl (by decide)))

/-- Looking up a non-`"DEFAULT"` profile in the popped dictionary finds the
section's merged view exactly when the section exists in the store. -/
theorem lookup_configDictNoDefault (store : ConfigStore) (p : String)
    (hwf : ∀ s ∈ store.sections, s.1 ≠ "DEFAULT") :
    (configDictNoDefault store).lookup p =
      (store.sections.lookup p).map (mergeWithDefaults store.defaults) := by
  have hkeep : configDictNoDefault store =
      store.sections.map (fun s => (s.1, mergeWithDefaults store.defaults s.2)) := by
    unfold configDictNoDefault configDict
    rw [List.filter_cons]
    simp only [show (("DEFAULT" : String) != "DEFAULT") = false by decide, Bool.false_eq_true,
      if_false]
    rw [List.filter_eq_self]
    intro e he
    obtain ⟨s, hsmem, rfl⟩ := List.mem_map.mp he
    simpa [bne_iff_ne] using hwf s hsmem
  rw [hkeep, lookup_map_snd]

/-- C2 counterexample: in a store with a `[DEFAULT]` key `shared_key` and a
`[default]` section that does not write that key, `get_profiles("default")`
returns a mapping that does contain `shared_key` — the key is inherited
from the implicit default section, contradicting the claim. -/
theorem get_profiles_default_inherits_DEFAULT_keys :
    get_profiles (some "default") c2Store =
      ProfilesResult.single (some [("aws_access_key_id", "AKIA"), ("shared_key", "from_default")]) ∧
    c2Store.sections.lookup "default" = some [("aws_access_key_id", "AKIA")] ∧
    "shared_key" ∉ (([("aws_access_key_id", "AKIA")] : List (String × String)).map Prod.fst) := by
  refine ⟨by decide, by decide, by decide⟩

/-- C2 amended: `get_profiles("default")` returns the `[default]` section's
own keys merged with the `[DEFAULT]` keys (the section's values taking
precedence, per `configparser` inheritance); the implicit `DEFAULT`
section itself is never returned, standalone or as an entry of the full
mapping. -/
theorem get_profiles_default_merged
    (store : ConfigStore) (own : List (String × String))
    (hwf : ∀ s ∈ store.sections, s.1 ≠ "DEFAULT")
    (hlk : store.sections.lookup "default" = some own) :
    get_profiles (some "default") store =
      ProfilesResult.single (some (mergeWithDefaults store.defaults own)) ∧
    (∀ k, (mergeWithDefaults store.defaults own).lookup k =
      ((own.lookup k).or (store.defaults.lookup k))) ∧
    get_profiles (some "DEFAULT") store = ProfilesResult.single none ∧
    get_profiles none store = ProfilesResult.full (configDictNoDefault store) ∧
    (∀ e ∈ configDictNoDefault store, e.1 ≠ "DEFAULT") := by
  have hall : ∀ e ∈ configDictNoDefault store, e.1 ≠ "DEFAULT" := by
    intro e he
    have hpe := (List.mem_filter.mp he).2
    simpa [bne_iff_ne] using hpe
  refine ⟨?_, fun k => lookup_mergeWithDefaults _ _ _, ?_, rfl, hall⟩
  · show ProfilesResult.single ((configDictNoDefault store).lookup "default") = _
    rw [lookup_configDictNoDefault store "default" hwf, hlk]
    rfl
  · show ProfilesResult.single ((configDictNoDefault store).lookup "DEFAULT") = _
    rw [lookup_eq_none_of_all_ne _ _ hall]

/-- C2 amended witness at the concrete two-section store. -/
theorem get_profiles_default_merged_witness :
    get_profiles (some "default") c2Store =
      ProfilesResult.single
        (some (mergeWithDefaults c2Store.defaults [("aws_access_key_id", "AKIA")])) ∧
    get_profiles (some "DEFAULT") c2Store = ProfilesResult.single none := by
  have h := get_profiles_default_merged c2Store [("aws_access_key_id", "AKIA")]
    (by decide) (by decide)
  exact ⟨h.1, h.2.2.1⟩
